import Mathlib

/-!
Verification of `corr_comp.py`: a shallow embedding of the program's data
model and operations, with theorems settling the specification claims.

The embedding conventions:
* Python strings are Lean `String`s; string primitives (`in`, `os.path.dirname`,
  `os.path.join`, `os.path.splitext`, `str.rfind`) are modelled character by
  character from CPython's posixpath semantics.
* Python floats are idealised as exact numbers (`ℚ` for values that are only
  carried around, `ℝ` for the correlation kernel).
* Side effects (process spawns, renames, file writes, chdir) are modelled as
  explicit action traces / state records.
* External subprocess outcomes are parameters of the model.
-/

namespace CorrComp

/-! ### Python string primitives -/

/-- Python `sub in s` on strings: substring membership.  The empty string is a
substring of every string. -/
def pyStrIn (sub s : String) : Bool :=
  (List.range (s.data.length + 1)).any (fun i => sub.data.isPrefixOf (s.data.drop i))

/-- Python `s.rfind(c)`: highest index of `c` in `s`, or `-1` when absent. -/
def pyRfind (l : List Char) (c : Char) : Int :=
  (l.length : Int) - 1 - (l.reverse.findIdx (fun x => x = c) : Int)

/-- CPython `posixpath.dirname`: everything up to (excluding) the last slash;
a nonempty head that is not all slashes has its trailing slashes stripped. -/
def pyDirname (p : String) : String :=
  let l := p.data
  let i := (pyRfind l '/' + 1).toNat
  let head := l.take i
  if head ≠ [] ∧ ¬ (head.all (fun c => c = '/')) then
    ⟨(head.reverse.dropWhile (fun c => c = '/')).reverse⟩
  else ⟨head⟩

/-- CPython `posixpath.join(a, b)` for a single tail component. -/
def pyJoin (a b : String) : String :=
  if b.data.headD ' ' = '/' then b
  else if a = "" then b
  else if a.data.getLastD ' ' = '/' then a ++ b
  else a ++ "/" ++ b

/-- CPython `posixpath.abspath` restricted to already-normalised paths: an
absolute path is returned as is, a relative one is joined onto `cwd`
(the `normpath` collapse step is elided; no caller below reaches it with a
non-normalised path). -/
def pyAbspath (cwd p : String) : String :=
  if p.data.headD ' ' = '/' then p
  else if p = "" then cwd
  else pyJoin cwd p

/-- CPython `posixpath.splitext(p)[0]`: drop the last extension when the last
dot lies after the last slash and the base name has a non-dot character
before that dot. -/
def pySplitextBase (p : String) : String :=
  let l := p.data
  let s := pyRfind l '/'
  let d := pyRfind l '.'
  if d > s ∧ (List.range l.length).any
      (fun i => decide (s < (i : Int)) && decide ((i : Int) < d) && (l.getD i '.' ≠ '.')) then
    ⟨l.take d.toNat⟩
  else p

/-- Python `' '.join(cmd_list)`. -/
def joinSpace : List String → String
  | [] => ""
  | [x] => x
  | x :: xs => x ++ " " ++ joinSpace xs

/-- Python `s[:-n]` for `n ≤ len(s)`. -/
def strDropRight (s : String) (n : Nat) : String :=
  ⟨s.data.take (s.data.length - n)⟩

/-! ### Python dict primitives (for `os.environ` / `env`) -/

/-- One `d[k] = v` assignment on an association-list model of a Python dict:
overwrite the existing binding of the key, else append a new one. -/
def pySetItem (d : List (String × String)) (kv : String × String) : List (String × String) :=
  if d.any (fun p => p.1 == kv.1) then
    d.map (fun p => if p.1 == kv.1 then (p.1, kv.2) else p)
  else d ++ [kv]

/-- Python `base.update(upd)` on dicts: apply every binding of `upd` in order. -/
def pyUpdate (base upd : List (String × String)) : List (String × String) :=
  upd.foldl pySetItem base

/-! ### `Command.run` (Process Runner), lines 98-178 -/

/-- The value `Command.run` hands back to its caller: the dry-run branch
returns the bare integer `0` (line 136), the normal branch returns the
4-tuple `(p.returncode, log_file, stdout, stderr)` (line 178). -/
inductive PyRet where
  | int (n : Int)
  | tuple4 (rc : Int) (log_file : String) (stdout_file : Option String) (stderr_file : Option String)
deriving DecidableEq

/-- Python sequence unpacking `[a, b, c, d] = r` applied to a `PyRet`: a bare
integer is not iterable, so unpacking it raises `TypeError`. -/
def unpack4 (r : PyRet) : Except String (Int × String × Option String × Option String) :=
  match r with
  | PyRet.int _ => Except.error "TypeError: cannot unpack non-iterable int object"
  | PyRet.tuple4 a b c d => Except.ok (a, b, c, d)

/-- Everything one call of `Command.run` does: the returned value, whether an
exception escaped, the processes spawned, the files written, the messages
logged, the process-global `os.environ` after the call, and the environment
the spawned process received. -/
structure RunEffect where
  ret : PyRet
  raised : Bool
  spawned : List (List String)
  writes : List String
  trace : List String
  environAfter : List (String × String)
  spawnEnv : Option (List (String × String))
deriving DecidableEq

/-- `Command.run` (lines 98-178), with the external process outcome
`proc = (returncode, decoded stdout, decoded stderr)` supplied as a parameter.
Line 139 binds `merged_env = os.environ` without copying, so a truthy `env`
argument updates the process-global environment itself; `environAfter`
records that global dict after the call. -/
def command_run (cmd_list : List String) (environ0 : List (String × String))
    (log_file : String) (debug dryrun : Bool) (env : Option (List (String × String)))
    (stdoutPath : String) (shell : Bool) (proc : Int × String × String) : RunEffect :=
  let cmd := joinSpace cmd_list
  let t0 := ["Running: " ++ cmd]
  if dryrun then
    { ret := PyRet.int 0, raised := false, spawned := [], writes := [],
      trace := t0 ++ ["Performing command as dryrun"],
      environAfter := environ0, spawnEnv := none }
  else
    let merged_env :=
      match env with
      | none => environ0
      | some e => if e = [] then environ0 else pyUpdate environ0 e
    let rc := proc.1
    let out := proc.2.1
    let err := proc.2.2
    let stdoutOpt : Option String := if stdoutPath = "" then none else some stdoutPath
    let stderrOpt : Option String := stdoutOpt.map (fun s => pySplitextBase s ++ ".err")
    { ret := PyRet.tuple4 rc log_file stdoutOpt stderrOpt,
      raised := false,
      spawned := [cmd_list],
      writes :=
        match stdoutOpt, stderrOpt with
        | some so, some se => [so, se]
        | _, _ => [],
      trace := t0
        ++ (if rc ≠ 0 then ["command: " ++ cmd ++ " \n Failed with returncode " ++ toString rc] else [])
        ++ (if out ≠ "" then [out] else [])
        ++ (if err ≠ "" then [err] else []),
      environAfter := merged_env,
      spawnEnv := some merged_env }

/-! ### Format Bridge: `threshold_cifti` and `cifti_to_nifti`, lines 181-284

The two functions are modelled at the level of the file-system actions they
take: which external commands they build and run, and which renames they
perform.  (Logging, and the pass-through of `log_file`/`debug`/... to
`Command.run`, carry no information for the claims.) -/

/-- A file-system-visible step of the Format Bridge: an external command
invocation or an `os.rename`. -/
inductive FsAction where
  | runCmd (cmd_list : List String)
  | rename (src dst : String)
deriving DecidableEq

/-- The `cluster` command built by `threshold_cifti` (lines 204-211). -/
def threshold_cifti_cmd (nii out : String) (thresh : ℚ) (verbose : Bool) : List String :=
  ["cluster", "--in=" ++ nii, "--thresh=" ++ toString thresh,
   "--oindex=" ++ out, "--no_table"] ++ (if verbose then ["--verbose"] else [])

/-- Intermediate (`out_tmp`) file name chosen by `cifti_to_nifti`
(lines 245-253): keyed by a substring test on the output name. -/
def cifti_out_tmp (out : String) : String :=
  if pyStrIn ".nii.gz" out then strDropRight out 7 ++ ".tmp.nii.gz"
  else if pyStrIn ".nii" out then strDropRight out 4 ++ ".tmp.nii"
  else out ++ ".tmp"

/-- Cluster-report (`out_txt`) file name chosen by `cifti_to_nifti`
(lines 245-253). -/
def cifti_out_txt (out : String) : String :=
  if pyStrIn ".nii.gz" out then strDropRight out 7 ++ ".cluster.txt"
  else if pyStrIn ".nii" out then strDropRight out 4 ++ ".cluster.txt"
  else out ++ ".cluster.txt"

/-- Actions of `cifti_to_nifti` (lines 255-284): run the `wb_command`
conversion into `out_tmp`; then, when `thresh` is truthy, run the
thresholding command writing to `out`, else rename `out_tmp` to `out`.
Python float truthiness: `if thresh:` holds exactly when `thresh ≠ 0`. -/
def cifti_to_nifti_actions (cii out : String) (thresh : ℚ) (verbose : Bool) : List FsAction :=
  [FsAction.runCmd ["wb_command", "-cifti-convert", "-to-nifti", cii, cifti_out_tmp out]] ++
  (if thresh ≠ 0 then
    [FsAction.runCmd (threshold_cifti_cmd (cifti_out_tmp out) out thresh verbose)]
  else
    [FsAction.rename (cifti_out_tmp out) out])

/-- The `fslmeants` command built by `meants` (lines 309-315). -/
def meants_cmd (nii out mask : String) (verbose : Bool) : List String :=
  ["fslmeants", "-i", nii, "-o", out, "-m", mask] ++ (if verbose then ["--verbose"] else [])

/-- Actions of `cii_meants` (lines 348-381): convert the timeseries with
threshold hard-coded to `0` (line 352), convert the mask with the given
`thresh`, then extract the mean timeseries. -/
def cii_meants_actions (cii mask out_pfx : String) (thresh : ℚ) (verbose : Bool) : List FsAction :=
  cifti_to_nifti_actions cii (out_pfx ++ ".nii.gz") 0 verbose ++
  cifti_to_nifti_actions mask (out_pfx ++ ".mask.nii.gz") thresh verbose ++
  [FsAction.runCmd (meants_cmd (out_pfx ++ ".nii.gz") (out_pfx ++ ".mat.txt")
      (out_pfx ++ ".mask.nii.gz") verbose)]

/-- Actions of the extraction phase of `corr_comp` (lines 500-519): seed
branch with threshold `0`, stat branch with the caller-supplied `thresh`. -/
def corr_comp_pipelineActions (cii seed_mask stat_mask : String) (thresh : ℚ)
    (verbose : Bool) : List FsAction :=
  cii_meants_actions cii seed_mask "mask.seed" 0 verbose ++
  cii_meants_actions cii stat_mask "mask.stat" thresh verbose

/-- Recognises an invocation of the FSL `cluster` thresholding binary. -/
def isClusterCmd : FsAction → Bool
  | FsAction.runCmd l => l.headD "" == "cluster"
  | FsAction.rename _ _ => false

/-- Recognises an `os.rename` action. -/
def isRenameAct : FsAction → Bool
  | FsAction.runCmd _ => false
  | FsAction.rename _ _ => true

/-! ### Pipeline Orchestrator: output-directory resolution, lines 474-478 -/

/-- The `out_dir` computation of `corr_comp` (lines 474-478), as written:
`if '' in (os.path.dirname(out_prefix)): out_dir = os.getcwd() else:
out_dir = os.path.abspath(os.path.dirname(out_prefix))`. -/
def corr_comp_out_dir (cwd out_pfx : String) : String :=
  if pyStrIn "" (pyDirname out_pfx) then cwd
  else pyAbspath cwd (pyDirname out_pfx)

/-! ### Pipeline Orchestrator: working-directory lifecycle, lines 490-532 -/

/-- Process state the orchestrator leaves behind: the current working
directory and whether the temporary working directory still exists. -/
structure OrchOutcome where
  raised : Bool
  cwd : String
  tmpExists : Bool
deriving DecidableEq

/-- Working-directory lifecycle of `corr_comp` (lines 490-532):
`cwd = os.getcwd()`; `tmp_dir = join(out_dir, 'tmp_dir_' + rand)`; `makedirs`;
`os.chdir(tmp_dir)`; then the extraction/correlation steps (which may raise,
propagating with no `try`/`finally`); on the non-raising path, either
`chdir(cwd); rmtree(tmp_dir)` (retention off; `rmtree` itself may raise, after
the chdir) or `chdir(cwd)` (retention on).  `stepsRaise` and `rmtreeRaises`
parametrise the externally-caused failures. -/
def corr_comp_cwd_trace (cwd0 out_dir : String) (suffix : Nat)
    (keep_tmp_dir stepsRaise rmtreeRaises : Bool) : OrchOutcome :=
  let tmp_dir := pyJoin out_dir ("tmp_dir_" ++ toString suffix)
  if stepsRaise then { raised := true, cwd := tmp_dir, tmpExists := true }
  else if keep_tmp_dir then { raised := false, cwd := cwd0, tmpExists := true }
  else if rmtreeRaises then { raised := true, cwd := cwd0, tmpExists := true }
  else { raised := false, cwd := cwd0, tmpExists := false }

/-! ### `write_to_file` and the Persist step, lines 426-445 and 534-538 -/

/-- A Python value passed to `write_to_file` as `text`: already a string, or a
float (the correlation scalar).  Exact floats are idealised as rationals. -/
inductive PyText where
  | str (s : String)
  | float (q : ℚ)
deriving DecidableEq

/-- Python `str(text)` as performed by `write_to_file` (lines 438-439); the
textual rendering of a float is modelled by the canonical rational
rendering. -/
def pyStr : PyText → String
  | PyText.str s => s
  | PyText.float q => toString q

/-- One file write: target path and full content (the file is opened with
mode `"w"`, so the content written is the file's entire content). -/
structure WriteEffect where
  path : String
  content : String
deriving DecidableEq

/-- `write_to_file` (lines 426-445): returns the output file name; writes
`str(text) + "\n"` as the whole content of that file. -/
def write_to_file (out_file : String) (text : PyText) : String × WriteEffect :=
  (out_file, { path := out_file, content := pyStr text ++ "\n" })

/-- The Persist step of `corr_comp` (lines 534-538): the only write the
orchestrator itself performs, to `out_prefix + ".pear_corr.txt"`. -/
def corr_comp_persist (out_pfx : String) (corr_coeff : ℚ) : String × List WriteEffect :=
  ((write_to_file (out_pfx ++ ".pear_corr.txt") (PyText.float corr_coeff)).1,
   [(write_to_file (out_pfx ++ ".pear_corr.txt") (PyText.float corr_coeff)).2])

/-! ### Correlation Engine, lines 383-424

`pearson_corr` loads two sequences and computes
`remove_diagonal(np.tril(np.corrcoef(A, B), k=0)).flatten(order='C')[1]`.
Here floats are idealised as reals.  `np.cov`/`np.corrcoef` (external numpy
dependency) are modelled from their documented semantics for two length-N
1-D inputs: the covariance matrix entry is the centred cross product summed
and divided by `N - 1`, and the correlation entry is
`C[i][j] / sqrt(C[i][i] * C[j][j])` (numpy's final clip of the entries to
`[-1, 1]` is the identity on them and is elided).  Matrices are row-major
lists of rows, matching the array layout the stride trick in
`remove_diagonal` works on. -/

noncomputable section

/-- Sum of a list of reals. -/
def listSum (l : List ℝ) : ℝ := l.foldr (· + ·) 0

/-- Arithmetic mean of a sequence. -/
def nMean (l : List ℝ) : ℝ := listSum l / (l.length : ℝ)

/-- The sequence centred at its mean. -/
def centered (l : List ℝ) : List ℝ := l.map (fun x => x - nMean l)

/-- Sum of products of the centred sequences: the unnormalised covariance. -/
def covSum (a b : List ℝ) : ℝ :=
  listSum (List.zipWith (· * ·) (centered a) (centered b))

/-- `np.cov` entry for two equal-length 1-D observations rows (default
`ddof = 1`): centred cross product over `N - 1`. -/
def np_cov (a b : List ℝ) : ℝ := covSum a b / ((a.length : ℝ) - 1)

/-- `np.corrcoef(A, B)` for two 1-D sequences: the 2x2 matrix with entries
`C[i][j] / sqrt(C[i][i] * C[j][j])` over the covariance matrix `C` of the
stacked rows `A`, `B`. -/
def corrcoefMat (A B : List ℝ) : List (List ℝ) :=
  [[np_cov A A / Real.sqrt (np_cov A A * np_cov A A),
    np_cov A B / Real.sqrt (np_cov A A * np_cov B B)],
   [np_cov B A / Real.sqrt (np_cov B B * np_cov A A),
    np_cov B B / Real.sqrt (np_cov B B * np_cov B B)]]

/-- One row of `np.tril(_, k=0)`: entries strictly above the diagonal
(column index `j > i`) are zeroed. -/
def trilRow (i : Nat) : Nat → List ℝ → List ℝ
  | _, [] => []
  | j, x :: xs => (if j ≤ i then x else 0) :: trilRow i (j + 1) xs

/-- Rows of `np.tril(_, k=0)` starting from row index `i`. -/
def trilFrom : Nat → List (List ℝ) → List (List ℝ)
  | _, [] => []
  | i, r :: rs => trilRow i 0 r :: trilFrom (i + 1) rs

/-- `np.tril(M, k=0)`: zero everything above the main diagonal. -/
def tril (M : List (List ℝ)) : List (List ℝ) := trilFrom 0 M

/-- `remove_diagonal` (lines 383-399).  The stride trick reads the row-major
ravel of `A` shifted by one; element `(i, j)` of the intermediate
`(m-1) x m` view sits at ravel index `1 + i*(m+1) + j`, and the final
`reshape(m, -1)` re-rows that view's row-major order into `m` rows of
`m - 1` entries. -/
def remove_diagonal (M : List (List ℝ)) : List (List ℝ) :=
  let m := M.length
  let r := (List.flatten M).drop 1
  let flat := (((List.range (m - 1)).map
      (fun i => (List.range m).map (fun j => r.getD (i * (m + 1) + j) 0)))).flatten
  (List.range m).map (fun i => (List.range (m - 1)).map (fun j => flat.getD (i * (m - 1) + j) 0))

/-- The Correlation Engine (line 424), on already-loaded sequences:
`remove_diagonal(np.tril(np.corrcoef(A, B), k=0)).flatten(order='C')[1]`. -/
def pearson_corr (A B : List ℝ) : ℝ :=
  (List.flatten (remove_diagonal (tril (corrcoefMat A B)))).getD 1 0

/-- Modelled from the spec: the standard Pearson correlation coefficient of
two sequences, `sum((a-mean a)(b-mean b)) / (sqrt(sum((a-mean a)^2)) *
sqrt(sum((b-mean b)^2)))`. -/
def pearsonRhoSpec (A B : List ℝ) : ℝ :=
  covSum A B / (Real.sqrt (covSum A A) * Real.sqrt (covSum B B))

end

/-! ### Helper lemmas for the Correlation Engine -/

theorem listSum_cons (x : ℝ) (l : List ℝ) : listSum (x :: l) = x + listSum l := rfl

/-- The extraction pipeline applied to any 2x2 matrix returns the (1,0)
entry: `tril` zeroes the (0,1) slot, the stride trick drops the diagonal
leaving `[b_zeroed, c]`, and index `[1]` picks `c`. -/
theorem extract_2x2 (a b c d : ℝ) :
    (List.flatten (remove_diagonal (tril [[a, b], [c, d]]))).getD 1 0 = c := by
  simp [remove_diagonal, tril, trilFrom, trilRow, List.range_succ]

theorem covSum_comm (a b : List ℝ) : covSum a b = covSum b a := by
  unfold covSum
  rw [List.zipWith_comm_of_comm]
  intro x y
  ring

theorem covSum_self_nonneg (a : List ℝ) : 0 ≤ covSum a a := by
  unfold covSum
  generalize centered a = l
  induction l with
  | nil => simp [listSum]
  | cons x xs ih =>
      rw [List.zipWith_cons_cons, listSum_cons]
      exact add_nonneg (mul_self_nonneg x) ih

/-- Shape reduction of `pearson_corr`: on any two sequences the extraction
pipeline lands on the (1,0) entry of the correlation matrix. -/
theorem pearson_corr_eq_cov_ratio (A B : List ℝ) :
    pearson_corr A B = np_cov B A / Real.sqrt (np_cov B B * np_cov A A) := by
  unfold pearson_corr corrcoefMat
  exact extract_2x2 _ _ _ _

/-! ### Claim theorems -/

/-- Claim C1: for every pair of numeric sequences of equal length N >= 2 with
nonzero variance, the Correlation Engine's extraction sequence (build the 2x2
correlation matrix, take the lower triangle including the diagonal, remove
the main-diagonal entries, flatten in row-major order, take the second
element) yields exactly the off-diagonal entry of the 2x2 Pearson correlation
matrix, i.e. the standard Pearson correlation coefficient. -/
theorem pearson_corr_extraction_correct (A B : List ℝ)
    (hlen : A.length = B.length) (hN : 2 ≤ A.length)
    (hA : covSum A A ≠ 0) (hB : covSum B B ≠ 0) :
    pearson_corr A B = pearsonRhoSpec A B := by
  have hp : 0 ≤ covSum A A := covSum_self_nonneg A
  have hq : 0 ≤ covSum B B := covSum_self_nonneg B
  have hp' : 0 < covSum A A := lt_of_le_of_ne hp (Ne.symm hA)
  have hq' : 0 < covSum B B := lt_of_le_of_ne hq (Ne.symm hB)
  have hm : (0 : ℝ) < (A.length : ℝ) - 1 := by
    have h2 : (2 : ℝ) ≤ (A.length : ℝ) := by exact_mod_cast hN
    linarith
  rw [pearson_corr_eq_cov_ratio]
  unfold np_cov pearsonRhoSpec
  rw [covSum_comm B A, ← hlen, div_mul_div_comm,
    Real.sqrt_div (mul_nonneg hq hp), Real.sqrt_mul_self hm.le, Real.sqrt_mul hq]
  have hsp : Real.sqrt (covSum A A) ≠ 0 := ne_of_gt (Real.sqrt_pos.mpr hp')
  have hsq : Real.sqrt (covSum B B) ≠ 0 := ne_of_gt (Real.sqrt_pos.mpr hq')
  rw [div_div_div_cancel_right₀ hm.ne']
  rw [mul_comm (Real.sqrt (covSum B B)) (Real.sqrt (covSum A A))]

/-- Witness for C1 at the concrete input `[1,2,3,4]`, `[4,3,2,1]`. -/
theorem pearson_corr_extraction_correct_witness :
    pearson_corr [1, 2, 3, 4] [4, 3, 2, 1] = pearsonRhoSpec [1, 2, 3, 4] [4, 3, 2, 1] :=
  pearson_corr_extraction_correct [1, 2, 3, 4] [4, 3, 2, 1] rfl (by decide)
    (by norm_num [covSum, centered, nMean, listSum])
    (by norm_num [covSum, centered, nMean, listSum])

/-- Claim C2 is violated by the code: since the empty string is a substring of
every string, the test at line 474, `'' in os.path.dirname(out_prefix)`, is
always true, so `out_dir` is the current working directory even when the
output prefix has a directory component (here `/data/results`). -/
theorem corr_comp_out_dir_ignores_dir_component :
    corr_comp_out_dir "/home/user" "/data/results/run1" = "/home/user" ∧
    pyDirname "/data/results/run1" = "/data/results" ∧
    pyAbspath "/home/user" (pyDirname "/data/results/run1") ≠ "/home/user" := by
  refine ⟨rfl, rfl, ?_⟩
  decide

/-- Claim C3 as stated is false: when an extraction/correlation step raises,
no handler restores the prior working directory, so control leaves
`corr_comp` with the current directory still inside the temporary working
directory. -/
theorem corr_comp_cwd_claim_counterexample :
    (corr_comp_cwd_trace "/home/user" "/home/user" 7 false true false).raised = true ∧
    (corr_comp_cwd_trace "/home/user" "/home/user" 7 false true false).cwd =
      "/home/user/tmp_dir_7" ∧
    (corr_comp_cwd_trace "/home/user" "/home/user" 7 false true false).cwd ≠ "/home/user" := by
  refine ⟨rfl, rfl, ?_⟩
  decide

/-- Claim C3 amended: on every exit path on which the pipeline steps do not
raise — normal return with or without retention, and cleanup failure — the
prior working directory is restored before control leaves the orchestrator;
and after a successful run with retention disabled the working directory no
longer exists.  (When a pipeline step raises, the restore is skipped.) -/
theorem corr_comp_cwd_restored_when_steps_ok
    (cwd0 od : String) (sfx : Nat) (keep rmF : Bool) :
    (corr_comp_cwd_trace cwd0 od sfx keep false rmF).cwd = cwd0 ∧
    (keep = false → rmF = false →
      (corr_comp_cwd_trace cwd0 od sfx keep false rmF).tmpExists = false ∧
      (corr_comp_cwd_trace cwd0 od sfx keep false rmF).raised = false) := by
  unfold corr_comp_cwd_trace
  cases keep <;> cases rmF <;> simp

/-- Witness for the amended C3 at a concrete successful run. -/
theorem corr_comp_cwd_restored_when_steps_ok_witness :
    (corr_comp_cwd_trace "/h" "/h/out" 3 false false false).cwd = "/h" ∧
    (corr_comp_cwd_trace "/h" "/h/out" 3 false false false).tmpExists = false :=
  ⟨(corr_comp_cwd_restored_when_steps_ok "/h" "/h/out" 3 false false).1,
   ((corr_comp_cwd_restored_when_steps_ok "/h" "/h/out" 3 false false).2 rfl rfl).1⟩

/-- Claim C4 is violated by the code: with dry-run enabled `Command.run`
spawns nothing and writes nothing, but line 136 returns the bare integer `0`
instead of the documented `(returncode, log_file, stdout, stderr)` tuple, so
the 4-way unpacking every caller performs on the result raises `TypeError`. -/
theorem command_run_dryrun_returns_bare_int :
    command_run ["cluster", "--in=in.nii", "--thresh=1.77", "--oindex=out.nii", "--no_table"]
        [] "log_file.log" false true none "" false (0, "", "") =
      { ret := PyRet.int 0, raised := false, spawned := [], writes := [],
        trace := ["Running: cluster --in=in.nii --thresh=1.77 --oindex=out.nii --no_table",
                  "Performing command as dryrun"],
        environAfter := [], spawnEnv := none } ∧
    unpack4 (PyRet.int 0) =
      Except.error "TypeError: cannot unpack non-iterable int object" :=
  ⟨rfl, rfl⟩

/-- Claim C5: a non-zero exit code of the external command does not raise:
`Command.run` records the failure message to the trace and returns control to
the caller with that exit code in the result tuple. -/
theorem command_run_nonzero_exit_no_raise (cmd_list : List String)
    (environ0 : List (String × String)) (log_file stdoutPath out err : String)
    (debug shell : Bool) (env : Option (List (String × String))) (rc : Int)
    (h : rc ≠ 0) :
    (command_run cmd_list environ0 log_file debug false env stdoutPath shell
        (rc, out, err)).raised = false ∧
    unpack4 (command_run cmd_list environ0 log_file debug false env stdoutPath shell
        (rc, out, err)).ret =
      Except.ok (rc, log_file,
        (if stdoutPath = "" then none else some stdoutPath),
        ((if stdoutPath = "" then none else some stdoutPath).map
          (fun s => pySplitextBase s ++ ".err"))) ∧
    ("command: " ++ joinSpace cmd_list ++ " \n Failed with returncode " ++ toString rc) ∈
      (command_run cmd_list environ0 log_file debug false env stdoutPath shell
        (rc, out, err)).trace := by
  unfold command_run unpack4
  simp [h]

/-- Witness for C5 at a concrete failing command. -/
theorem command_run_nonzero_exit_no_raise_witness :
    (command_run ["fslmeants"] [] "f.log" false false none "" false (1, "", "")).raised = false ∧
    unpack4 (command_run ["fslmeants"] [] "f.log" false false none "" false (1, "", "")).ret =
      Except.ok (1, "f.log", none, none) ∧
    ("command: fslmeants \n Failed with returncode 1") ∈
      (command_run ["fslmeants"] [] "f.log" false false none "" false (1, "", "")).trace := by
  simpa using command_run_nonzero_exit_no_raise ["fslmeants"] [] "f.log" "" "" ""
    false false none 1 (by decide)

/-- Claim C6: when `threshold` is zero/falsy, `cifti_to_nifti` renames the
intermediate raster to the output path verbatim and never invokes the
thresholding command; when `threshold` is truthy, it invokes the thresholding
step writing to the output path and performs no rename. -/
theorem cifti_to_nifti_threshold_branching (cii out : String) (t : ℚ) (v : Bool) :
    (t = 0 → cifti_to_nifti_actions cii out t v =
        [FsAction.runCmd ["wb_command", "-cifti-convert", "-to-nifti", cii, cifti_out_tmp out],
         FsAction.rename (cifti_out_tmp out) out] ∧
      (cifti_to_nifti_actions cii out t v).filter isClusterCmd = []) ∧
    (t ≠ 0 → cifti_to_nifti_actions cii out t v =
        [FsAction.runCmd ["wb_command", "-cifti-convert", "-to-nifti", cii, cifti_out_tmp out],
         FsAction.runCmd (threshold_cifti_cmd (cifti_out_tmp out) out t v)] ∧
      ("--oindex=" ++ out) ∈ threshold_cifti_cmd (cifti_out_tmp out) out t v ∧
      (cifti_to_nifti_actions cii out t v).filter isRenameAct = []) := by
  constructor
  · intro ht
    subst ht
    refine ⟨rfl, ?_⟩
    simp [cifti_to_nifti_actions, isClusterCmd, List.filter]
  · intro ht
    refine ⟨?_, ?_, ?_⟩
    · simp [cifti_to_nifti_actions, ht]
    · simp [threshold_cifti_cmd]
    · simp [cifti_to_nifti_actions, ht, isRenameAct, List.filter, threshold_cifti_cmd]

/-- Witness for C6: both branches at concrete inputs. -/
theorem cifti_to_nifti_threshold_branching_witness :
    cifti_to_nifti_actions "a.dtseries.nii" "b.nii.gz" 0 false =
      [FsAction.runCmd ["wb_command", "-cifti-convert", "-to-nifti", "a.dtseries.nii",
         cifti_out_tmp "b.nii.gz"],
       FsAction.rename (cifti_out_tmp "b.nii.gz") "b.nii.gz"] ∧
    (cifti_to_nifti_actions "a.dtseries.nii" "b.nii.gz" (177 / 100) false).filter isRenameAct
      = [] :=
  ⟨((cifti_to_nifti_threshold_branching "a.dtseries.nii" "b.nii.gz" 0 false).1 rfl).1,
   (((cifti_to_nifti_threshold_branching "a.dtseries.nii" "b.nii.gz" (177 / 100) false).2
      (by norm_num)).2).2⟩

/-- Claim C7: in the extraction phase of `corr_comp` the caller-supplied
threshold reaches only the stat-mask conversion: the seed branch never
invokes the thresholding command, with threshold `0` no thresholding command
is invoked at all, and with a nonzero threshold the single thresholding
invocation is the one of the stat-mask conversion (carrying the caller's
threshold value). -/
theorem corr_comp_threshold_only_stat_branch (cii seed stat : String) (t : ℚ) (v : Bool) :
    (cii_meants_actions cii seed "mask.seed" 0 v).filter isClusterCmd = [] ∧
    (t = 0 → (corr_comp_pipelineActions cii seed stat t v).filter isClusterCmd = []) ∧
    (t ≠ 0 → (corr_comp_pipelineActions cii seed stat t v).filter isClusterCmd =
      [FsAction.runCmd (threshold_cifti_cmd (cifti_out_tmp "mask.stat.mask.nii.gz")
        "mask.stat.mask.nii.gz" t v)]) := by
  refine ⟨?_, ?_, ?_⟩
  · simp [cii_meants_actions, cifti_to_nifti_actions, isClusterCmd, meants_cmd, List.filter]
  · intro ht
    subst ht
    simp [corr_comp_pipelineActions, cii_meants_actions, cifti_to_nifti_actions,
      isClusterCmd, meants_cmd, List.filter]
  · intro ht
    simp [corr_comp_pipelineActions, cii_meants_actions, cifti_to_nifti_actions,
      isClusterCmd, meants_cmd, List.filter, ht, threshold_cifti_cmd]

/-- Witness for C7 at a concrete nonzero threshold. -/
theorem corr_comp_threshold_only_stat_branch_witness :
    (corr_comp_pipelineActions "ts.dtseries.nii" "seed.dscalar.nii" "stat.dscalar.nii"
        (177 / 100) false).filter isClusterCmd =
      [FsAction.runCmd (threshold_cifti_cmd (cifti_out_tmp "mask.stat.mask.nii.gz")
        "mask.stat.mask.nii.gz" (177 / 100) false)] :=
  ((corr_comp_threshold_only_stat_branch "ts.dtseries.nii" "seed.dscalar.nii"
      "stat.dscalar.nii" (177 / 100) false).2.2 (by norm_num))

/-- Claim C8: the Persist step writes exactly one result file, at the
caller-supplied output prefix with `.pear_corr.txt` appended, whose entire
content is the textual representation of the returned correlation scalar
followed by a single newline; the returned path is that same file. -/
theorem corr_comp_persist_single_result_file (out_pfx : String) (c : ℚ) :
    (corr_comp_persist out_pfx c).2 =
      [{ path := out_pfx ++ ".pear_corr.txt", content := pyStr (PyText.float c) ++ "\n" }] ∧
    (corr_comp_persist out_pfx c).2.length = 1 ∧
    (corr_comp_persist out_pfx c).1 = out_pfx ++ ".pear_corr.txt" :=
  ⟨rfl, rfl, rfl⟩

/-- Claim C9: the Correlation Engine is symmetric in its two (equal-length)
inputs. -/
theorem pearson_corr_symmetric (A B : List ℝ) (h : A.length = B.length) :
    pearson_corr A B = pearson_corr B A := by
  rw [pearson_corr_eq_cov_ratio, pearson_corr_eq_cov_ratio]
  unfold np_cov
  rw [covSum_comm B A, h,
    mul_comm (covSum B B / ((B.length : ℝ) - 1)) (covSum A A / ((B.length : ℝ) - 1))]

/-- Witness for C9 at a concrete pair. -/
theorem pearson_corr_symmetric_witness :
    pearson_corr [1, 2] [2, 1] = pearson_corr [2, 1] [1, 2] :=
  pearson_corr_symmetric [1, 2] [2, 1] rfl

/-- Claim C10: a non-dry-run call of `Command.run` with a non-empty
environment-override mapping updates the process-global environment itself
(line 139 aliases `os.environ`, no copy): after the call the global
environment is the override-merged dict, the spawned process received exactly
that dict, and a subsequent invocation with no overrides still spawns with
the overridden environment. -/
theorem command_run_env_mutates_global (cmd_list cmd2 : List String)
    (environ0 e : List (String × String)) (log_file so : String)
    (debug shell : Bool) (proc proc2 : Int × String × String)
    (h : e ≠ []) :
    (command_run cmd_list environ0 log_file debug false (some e) so shell proc).environAfter =
      pyUpdate environ0 e ∧
    (command_run cmd_list environ0 log_file debug false (some e) so shell proc).spawnEnv =
      some (pyUpdate environ0 e) ∧
    (command_run cmd2
        (command_run cmd_list environ0 log_file debug false (some e) so shell proc).environAfter
        log_file debug false none so shell proc2).spawnEnv =
      some (pyUpdate environ0 e) := by
  unfold command_run
  simp [h]

/-- Witness for C10 at a concrete override. -/
theorem command_run_env_mutates_global_witness :
    (command_run ["wb_command"] [("PATH", "/usr/bin")] "f.log" false false
        (some [("FSLDIR", "/opt/fsl")]) "" false (0, "", "")).environAfter =
      pyUpdate [("PATH", "/usr/bin")] [("FSLDIR", "/opt/fsl")] ∧
    (command_run ["wb_command"] [("PATH", "/usr/bin")] "f.log" false false
        (some [("FSLDIR", "/opt/fsl")]) "" false (0, "", "")).spawnEnv =
      some (pyUpdate [("PATH", "/usr/bin")] [("FSLDIR", "/opt/fsl")]) :=
  ⟨(command_run_env_mutates_global ["wb_command"] ["wb_command"] [("PATH", "/usr/bin")]
      [("FSLDIR", "/opt/fsl")] "f.log" "" false false (0, "", "") (0, "", "")
      (by decide)).1,
   (command_run_env_mutates_global ["wb_command"] ["wb_command"] [("PATH", "/usr/bin")]
      [("FSLDIR", "/opt/fsl")] "f.log" "" false false (0, "", "") (0, "", "")
      (by decide)).2.1⟩

end CorrComp
